import Mathlib

/-!
# RSVP service: create and delete handlers

A shallow embedding of the two request handlers of the repository,
`backend/src/add_rsvp/main.go` (create) and `backend/src/dl-rsvp/main.go`
(delete), together with the library calls they make:

* `strconv.Atoi` (Go standard library), following its fast path and its
  `ParseInt` / `ParseUint` slow path for base 10 and 64-bit `int`;
* `encoding/json` decoding into the `RSVP` struct;
* `database/sql`: the calls `Open`, `Prepare`, `Exec`, `RowsAffected`, `Close`,
  whose failures are supplied by an environment `Env`, and whose effect on the
  `rsvp` table is given by `execInsert` and `execDelete`.

Every handler run returns its response, the table after the run and the list of
database calls it made, in order.
-/

set_option autoImplicit false

/-! ## Go strings -/

/-- The bytes of a Go string (its UTF-8 encoding), each as a number below 256. -/
def goBytes (s : String) : List Nat :=
  (s.data.flatMap String.utf8EncodeChar).map UInt8.toNat

/-! ## strconv -/

namespace strconv

/-- The two errors of `strconv` number parsing: `ErrSyntax` and `ErrRange`. -/
inductive NumError where
  | ErrSyntax
  | ErrRange
deriving DecidableEq, Repr

/-- Size in bits of a Go `int` on the 64-bit targets the handler is built for. -/
def IntSize : Nat := 64

/-- Loop of `ParseUint(s, 10, 0)`: `n` is a `uint64`, the sum is taken modulo `2^64`
as in Go, and the loop stops at the first byte that is no decimal digit or at the
first overflow. -/
def parseUintLoop : List Nat → Nat → Nat × Option NumError
  | [], n => (n, none)
  | c :: rest, n =>
    let cutoff := (2 ^ 64 - 1) / 10 + 1
    let maxVal := 2 ^ IntSize - 1
    let lower := c ||| 32
    -- `c == '_' && base0` never holds: the base is 10
    if 48 ≤ c ∧ c ≤ 57 then
      let d := c - 48
      if n ≥ cutoff then (maxVal, some .ErrRange)
      else
        let n10 := n * 10
        let n1 := (n10 + d) % 2 ^ 64
        if n1 < n10 ∨ n1 > maxVal then (maxVal, some .ErrRange)
        else parseUintLoop rest n1
    else if 97 ≤ lower ∧ lower ≤ 122 then
      -- a letter is the digit `lower - 'a' + 10`, which is at least the base
      (0, some .ErrSyntax)
    else (0, some .ErrSyntax)

/-- Go `strconv.ParseUint(s, 10, 0)` on the bytes of `s`. -/
def ParseUint (s : List Nat) : Nat × Option NumError :=
  match s with
  | [] => (0, some .ErrSyntax)
  | _ => parseUintLoop s 0

/-- Go `strconv.ParseInt(s, 10, 0)` on the bytes of `s`. -/
def ParseInt (s : List Nat) : Int × Option NumError :=
  match s with
  | [] => (0, some .ErrSyntax)
  | c :: rest =>
    let neg := c = 45
    let s1 := if c = 43 ∨ c = 45 then rest else s
    match ParseUint s1 with
    | (_, some .ErrSyntax) => (0, some .ErrSyntax)
    | (un, _) =>
      let cutoff : Nat := 2 ^ (IntSize - 1)
      if ¬ neg ∧ un ≥ cutoff then ((cutoff : Int) - 1, some .ErrRange)
      else if neg ∧ un > cutoff then (-(cutoff : Int), some .ErrRange)
      else if neg then (-(un : Int), none)
      else ((un : Int), none)

/-- Loop of the fast path of `Atoi`: `ch -= '0'` on a byte, then `ch > 9` rejects. -/
def atoiFastLoop : List Nat → Int → Int × Option NumError
  | [], n => (n, none)
  | ch :: rest, n =>
    let ch1 := (ch + 256 - 48) % 256
    if ch1 > 9 then (0, some .ErrSyntax)
    else atoiFastLoop rest (n * 10 + (ch1 : Int))

/-- Go `strconv.Atoi` on the bytes of `s`: the fast path for fewer than 19 bytes,
`ParseInt(s, 10, 0)` otherwise. -/
def AtoiBytes (s : List Nat) : Int × Option NumError :=
  let sLen := s.length
  if 0 < sLen ∧ sLen < 19 then
    match s with
    | [] => (0, some .ErrSyntax)
    | c :: rest =>
      let s1 := if c = 45 ∨ c = 43 then rest else s
      if (c = 45 ∨ c = 43) ∧ s1.length < 1 then (0, some .ErrSyntax)
      else
        match atoiFastLoop s1 0 with
        | (_, some e) => (0, some e)
        | (n, none) => if c = 45 then (-n, none) else (n, none)
  else ParseInt s

/-- Go `strconv.Atoi(s)`: the parsed `int` and the error (`none` is Go's `nil`). -/
def Atoi (s : String) : Int × Option NumError :=
  AtoiBytes (goBytes s)

end strconv

/-- Go `fmt` rendering of an `int` under the verb `%d`. -/
def fmtInt (n : Int) : String := toString n

/-! ## The store -/

/-- Modelled from the spec: a row of the table `rsvp` of the store file `db/rsvp.db`,
which is not part of the sources. Columns `id` (store-assigned primary key), `name`,
`email`, `event`. -/
structure Row where
  id : Int
  name : String
  email : String
  event : String
deriving DecidableEq, Repr

/-- Modelled from the spec: the store file `db/rsvp.db`, which is not part of the
sources, as the rows of its single table `rsvp` in insertion order. -/
abbrev Store := List Row

namespace Store

/-- The primary-key constraint of the table: no two rows share an `id`. -/
def WF (db : Store) : Prop := (db.map Row.id).Nodup

instance (db : Store) : Decidable (WF db) := by
  unfold WF; infer_instance

/-- The largest `id` in the table, `none` when the table is empty. -/
def maxId : Store → Option Int
  | [] => none
  | r :: rs =>
    match maxId rs with
    | none => some r.id
    | some m => some (max r.id m)

/-- Modelled from the spec: the `id` the store assigns to the next inserted row (the
table definition is not part of the sources): `1` in an empty table, otherwise one more
than the largest `id` present, so that the `id` is unique. -/
def nextId (db : Store) : Int :=
  match maxId db with
  | none => 1
  | some m => m + 1

/-- Modelled from the spec: effect of a successful
`INSERT INTO rsvp(name, email, event) VALUES (?, ?, ?)`: exactly one new row, with a
store-assigned `id`, appended; the rows present before are untouched. -/
def execInsert (db : Store) (name email event : String) : Store :=
  db ++ [{ id := nextId db, name := name, email := email, event := event }]

/-- Modelled from the spec: effect of a successful `DELETE FROM rsvp WHERE id = ?`: the
table without the rows whose `id` is the argument, and the affected-row count, the
number of rows removed. -/
def execDelete (db : Store) (id : Int) : Store × Int :=
  (db.filter (fun r => r.id ≠ id), ((db.filter (fun r => r.id = id)).length : Int))

end Store

/-! ## database/sql -/

/-- An argument bound to a `?` placeholder of a prepared statement. -/
inductive SqlArg where
  | int (n : Int)
  | text (s : String)
deriving DecidableEq, Repr

/-- The `database/sql` calls a handler makes, as recorded in the order of the calls. -/
inductive Op where
  | sqlOpen (driverName dataSourceName : String)
  | prepare (query : String)
  | exec (args : List SqlArg)
  | rowsAffected
  | stmtClose
  | dbClose
deriving DecidableEq, Repr

/-- What the surroundings of one request decide: whether `sql.Open`, `db.Prepare`,
`stmt.Exec` and `res.RowsAffected` return an error, and the value of the environment
variable `LAMBDA_TASK_ROOT`. A statement whose `Exec` returns an error changes no row. -/
structure Env where
  openErr : Bool
  prepareErr : Bool
  execErr : Bool
  rowsAffectedErr : Bool
  lambdaTaskRoot : String
deriving DecidableEq, Repr

/-- An environment in which no database call fails. -/
def Env.ok : Env :=
  { openErr := false, prepareErr := false, execErr := false, rowsAffectedErr := false,
    lambdaTaskRoot := "" }

/-- One run of a handler: what it returns or writes, the table afterwards, and the
database calls it made. -/
structure Run (ρ : Type) where
  resp : ρ
  db : Store
  ops : List Op
deriving DecidableEq, Repr

/-- Go `net/http` status codes used by the handlers. -/
def StatusOK : Nat := 200
/-- Go `http.StatusBadRequest`. -/
def StatusBadRequest : Nat := 400
/-- Go `http.StatusNotFound`. -/
def StatusNotFound : Nat := 404
/-- Go `http.StatusInternalServerError`. -/
def StatusInternalServerError : Nat := 500

/-! ## The delete handler, `backend/src/dl-rsvp/main.go` -/

namespace DlRsvp

/-- The part of `events.APIGatewayProxyRequest` the handler reads: the map
`PathParameters`. -/
structure APIGatewayProxyRequest where
  PathParameters : List (String × String)
deriving DecidableEq, Repr

/-- The fields of `events.APIGatewayProxyResponse` the handler sets. -/
structure APIGatewayProxyResponse where
  StatusCode : Nat
  Body : String
deriving DecidableEq, Repr

/-- Indexing a Go `map[string]string`: the value of the key, the empty string when the
key is absent. -/
def mapIndex (m : List (String × String)) (key : String) : String :=
  (m.lookup key).getD ""

/-- The Go `error` value returned next to the response; `none` is `nil`. -/
abbrev GoError := String

/-- The function `handler` of `dl-rsvp/main.go`. -/
def handler (request : APIGatewayProxyRequest) (env : Env) (db : Store) :
    Run (APIGatewayProxyResponse × Option GoError) :=
  let idStr := mapIndex request.PathParameters "id"
  match strconv.Atoi idStr with
  | (_, some _) =>
    { resp := ({ StatusCode := StatusBadRequest, Body := "Invalid ID" }, none),
      db := db, ops := [] }
  | (id, none) =>
    let opOpen := Op.sqlOpen "sqlite3" "../db/rsvp.db"
    if env.openErr then
      { resp := ({ StatusCode := StatusInternalServerError,
                   Body := "Database connection failed" }, none),
        db := db, ops := [opOpen] }
    else
      let opPrepare := Op.prepare "DELETE FROM rsvp WHERE id = ?"
      if env.prepareErr then
        { resp := ({ StatusCode := StatusInternalServerError,
                     Body := "Failed to prepare statement" }, none),
          db := db, ops := [opOpen, opPrepare, Op.dbClose] }
      else
        let opExec := Op.exec [SqlArg.int id]
        if env.execErr then
          { resp := ({ StatusCode := StatusInternalServerError,
                       Body := "Failed to execute statement" }, none),
            db := db, ops := [opOpen, opPrepare, opExec, Op.stmtClose, Op.dbClose] }
        else
          let res := Store.execDelete db id
          let rowsAffected := res.2
          if env.rowsAffectedErr ∨ rowsAffected = 0 then
            { resp := ({ StatusCode := StatusNotFound, Body := "RSVP not found" }, none),
              db := res.1,
              ops := [opOpen, opPrepare, opExec, Op.rowsAffected, Op.stmtClose, Op.dbClose] }
          else
            { resp := ({ StatusCode := StatusOK,
                         Body := "RSVP with ID " ++ fmtInt id ++ " deleted" }, none),
              db := res.1,
              ops := [opOpen, opPrepare, opExec, Op.rowsAffected, Op.stmtClose, Op.dbClose] }

end DlRsvp

/-! ## encoding/json -/

/-- A JSON value as the decoder's scanner delimits it. -/
inductive JSON where
  | null
  | bool (b : Bool)
  | number (literal : String)
  | string (s : String)
  | array (elems : List JSON)
  | object (members : List (String × JSON))

/-- The errors of `json.Decoder.Decode`: the input is no JSON value (`SyntaxError`,
and `io.EOF` on an empty body), or a JSON value does not fit the Go type it is stored
into (`UnmarshalTypeError`). -/
inductive JsonError where
  | SyntaxError
  | UnmarshalTypeError
deriving DecidableEq, Repr

/-! ## The create handler, `backend/src/add_rsvp/main.go` -/

namespace AddRsvp

/-- The struct `RSVP` of `add_rsvp/main.go`, with JSON keys `name`, `email`, `event`. -/
structure RSVP where
  Name : String
  Email : String
  Event : String
deriving DecidableEq, Repr

/-- The zero value of `RSVP`, as `var rsvp RSVP` declares it. -/
def RSVP.zero : RSVP := { Name := "", Email := "", Event := "" }

/-- Case folding of an object key as `encoding/json` matches keys to struct fields:
ASCII letters compare without regard to case. (The three keys of `RSVP` contain neither
`s` nor `k`, the only letters with a non-ASCII case variant.) -/
def foldName (key : String) : List Char := key.data.map Char.toUpper

/-- Storing a JSON value into a Go `string` field: a JSON string sets the field, `null`
leaves it, any other value leaves it and records an `UnmarshalTypeError`. -/
def storeString (v : JSON) (old : String) : String × Option JsonError :=
  match v with
  | .string s => (s, none)
  | .null => (old, none)
  | _ => (old, some .UnmarshalTypeError)

/-- The first error recorded is the one kept (`saveError` of the decoder). -/
def saveError (saved new : Option JsonError) : Option JsonError :=
  match saved with
  | some e => some e
  | none => new

/-- One member of a JSON object decoded into an `RSVP`: the key selects a field, an
unknown key is skipped. -/
def decodeMember (acc : RSVP × Option JsonError) (kv : String × JSON) :
    RSVP × Option JsonError :=
  let key := foldName kv.1
  if key = foldName "name" then
    let r := storeString kv.2 acc.1.Name
    ({ acc.1 with Name := r.1 }, saveError acc.2 r.2)
  else if key = foldName "email" then
    let r := storeString kv.2 acc.1.Email
    ({ acc.1 with Email := r.1 }, saveError acc.2 r.2)
  else if key = foldName "event" then
    let r := storeString kv.2 acc.1.Event
    ({ acc.1 with Event := r.1 }, saveError acc.2 r.2)
  else acc

/-- A JSON value that a Go `string` field accepts without error: a JSON string or
`null`. -/
def fitsString : JSON → Bool
  | .string _ => true
  | .null => true
  | _ => false

/-- The key of an object member names one of the three fields of `RSVP`, letter case
apart. -/
def namesField (key : String) : Prop :=
  foldName key = foldName "name" ∨ foldName key = foldName "email" ∨
    foldName key = foldName "event"

instance (key : String) : Decidable (namesField key) := by
  unfold namesField; infer_instance

/-- The part of `http.Request` the handler reads: the body, given as the first JSON
value the decoder reads from it, `none` when the body does not begin with a JSON value
(an empty body, text that is not JSON). `Decode` reads one value and leaves what follows
it in the body unread. -/
structure Request where
  Body : Option JSON

/-- Go `json.NewDecoder(r.Body).Decode(&rsvp)` on a zero `rsvp`: the struct after the
call and the error returned. An object fills the fields its keys name and leaves the
others at their zero value; `null` changes nothing; any other value is a type error. -/
def Decode (body : Option JSON) : RSVP × Option JsonError :=
  match body with
  | none => (RSVP.zero, some .SyntaxError)
  | some .null => (RSVP.zero, none)
  | some (.object members) => members.foldl decodeMember (RSVP.zero, none)
  | some _ => (RSVP.zero, some .UnmarshalTypeError)

/-- What the handler has written to its `http.ResponseWriter`: the status code and the
body. -/
structure ResponseWriter where
  status : Nat
  body : String
deriving DecidableEq, Repr

/-- Go `http.Error(w, error, code)`: the status `code` and the message followed by a
newline as body. -/
def httpError (error : String) (code : Nat) : ResponseWriter :=
  { status := code, body := error ++ "\n" }

/-- Go `fmt.Fprintf(w, ...)` as the first write to `w`: status 200 and the formatted
text as body. -/
def fprintf (text : String) : ResponseWriter :=
  { status := StatusOK, body := text }

/-- The function `handler` of `add_rsvp/main.go`. -/
def handler (r : Request) (env : Env) (db : Store) : Run ResponseWriter :=
  match Decode r.Body with
  | (_, some _) =>
    { resp := httpError "Invalid request body" StatusBadRequest, db := db, ops := [] }
  | (rsvp, none) =>
    let dbPath := env.lambdaTaskRoot ++ "/../db/rsvp.db"
    let opOpen := Op.sqlOpen "sqlite3" dbPath
    if env.openErr then
      { resp := httpError "Database connection failed" StatusInternalServerError,
        db := db, ops := [opOpen] }
    else
      let opPrepare := Op.prepare "INSERT INTO rsvp(name, email, event) VALUES (?, ?, ?)"
      if env.prepareErr then
        { resp := httpError "Failed to prepare statement" StatusInternalServerError,
          db := db, ops := [opOpen, opPrepare, Op.dbClose] }
      else
        let opExec :=
          Op.exec [SqlArg.text rsvp.Name, SqlArg.text rsvp.Email, SqlArg.text rsvp.Event]
        if env.execErr then
          { resp := httpError "Failed to execute statement" StatusInternalServerError,
            db := db, ops := [opOpen, opPrepare, opExec, Op.stmtClose, Op.dbClose] }
        else
          { resp := fprintf ("RSVP added for " ++ rsvp.Name),
            db := Store.execInsert db rsvp.Name rsvp.Email rsvp.Event,
            ops := [opOpen, opPrepare, opExec, Op.stmtClose, Op.dbClose] }

end AddRsvp

/-- No database call of the request fails. -/
def Env.AllOk (env : Env) : Prop :=
  env.openErr = false ∧ env.prepareErr = false ∧ env.execErr = false ∧
    env.rowsAffectedErr = false

instance (env : Env) : Decidable env.AllOk := by
  unfold Env.AllOk; infer_instance

/-! ## Facts about the store -/

namespace Store

theorem le_maxId (db : Store) (r : Row) (hr : r ∈ db) :
    ∃ m, maxId db = some m ∧ r.id ≤ m := by
  induction db with
  | nil => cases hr
  | cons a rest ih =>
    rcases List.mem_cons.mp hr with h | h
    · subst h
      cases hm : maxId rest with
      | none => exact ⟨r.id, by simp [maxId, hm], le_refl _⟩
      | some m => exact ⟨max r.id m, by simp [maxId, hm], le_max_left _ _⟩
    · obtain ⟨m, hm, hle⟩ := ih h
      exact ⟨max a.id m, by simp [maxId, hm], le_trans hle (le_max_right _ _)⟩

/-- The assigned `id` is larger than every `id` in the table. -/
theorem lt_nextId (db : Store) (r : Row) (hr : r ∈ db) : r.id < nextId db := by
  obtain ⟨m, hm, hle⟩ := le_maxId db r hr
  simp only [nextId, hm]
  omega

theorem nextId_not_mem (db : Store) : nextId db ∉ db.map Row.id := by
  intro h
  obtain ⟨r, hr, hid⟩ := List.mem_map.mp h
  have := lt_nextId db r hr
  omega

/-- The affected-row count of a delete is zero exactly when no row has the `id`. -/
theorem execDelete_count_eq_zero (db : Store) (id : Int) :
    (execDelete db id).2 = 0 ↔ ∀ r ∈ db, r.id ≠ id := by
  simp [execDelete, List.filter_eq_nil_iff]

theorem execDelete_count_nonneg (db : Store) (id : Int) : 0 ≤ (execDelete db id).2 := by
  simp [execDelete]

/-- After a delete no row has the deleted `id`. -/
theorem execDelete_twice_count (db : Store) (id : Int) :
    (execDelete (execDelete db id).1 id).2 = 0 := by
  rw [execDelete_count_eq_zero]
  intro r hr
  simp only [execDelete, List.mem_filter] at hr
  simpa using hr.2

/-- Deleting the `id` just assigned by an insert gives back the table before the insert
and affects one row. -/
theorem execDelete_execInsert (db : Store) (name email event : String) :
    execDelete (execInsert db name email event) (nextId db) = (db, 1) := by
  have hne : ∀ r ∈ db, r.id ≠ nextId db := fun r hr => ne_of_lt (lt_nextId db r hr)
  have h1 : db.filter (fun r => decide (r.id ≠ nextId db)) = db := by
    rw [List.filter_eq_self]
    intro r hr
    simpa using hne r hr
  have h2 : db.filter (fun r => decide (r.id = nextId db)) = [] := by
    rw [List.filter_eq_nil_iff]
    intro r hr
    simpa using hne r hr
  simpa [execDelete, execInsert, List.filter_append, h1, h2] using hne

/-- The primary-key constraint holds in the empty table and is kept by inserts and
deletes. -/
theorem wf_nil : WF [] := by simp [WF]

theorem wf_execInsert (db : Store) (name email event : String) (h : WF db) :
    WF (execInsert db name email event) := by
  have hn := nextId_not_mem db
  simp only [WF, execInsert, List.map_append, List.map_cons, List.map_nil]
  rw [List.nodup_append]
  refine ⟨h, by simp, ?_⟩
  intro a ha hb
  simp only [List.mem_singleton] at hb
  subst hb
  exact hn ha

theorem wf_execDelete (db : Store) (id : Int) (h : WF db) : WF (execDelete db id).1 := by
  simp only [WF, execDelete]
  exact List.Nodup.sublist (List.Sublist.map _ (List.filter_sublist _)) h

end Store

/-! ## The delete handler -/

/-- A result without error is the pair of its value and `nil`. -/
theorem pair_of_no_error {α ε : Type} (p : α × Option ε) (h : ¬ p.2 ≠ none) :
    p = (p.1, none) := by
  rcases p with ⟨v, e⟩
  cases e with
  | none => rfl
  | some e => exact absurd (by simp) h

namespace DlRsvp

/-- The handler once the identifier has parsed to `id`: the branches on the database
calls, in the order of the source. -/
theorem dl_handler_parsed (request : APIGatewayProxyRequest) (env : Env) (db : Store)
    (id : Int) (hid : strconv.Atoi (mapIndex request.PathParameters "id") = (id, none)) :
    handler request env db =
      if env.openErr then
        { resp := ({ StatusCode := 500, Body := "Database connection failed" }, none),
          db := db, ops := [Op.sqlOpen "sqlite3" "../db/rsvp.db"] }
      else if env.prepareErr then
        { resp := ({ StatusCode := 500, Body := "Failed to prepare statement" }, none),
          db := db,
          ops := [Op.sqlOpen "sqlite3" "../db/rsvp.db",
                  Op.prepare "DELETE FROM rsvp WHERE id = ?", Op.dbClose] }
      else if env.execErr then
        { resp := ({ StatusCode := 500, Body := "Failed to execute statement" }, none),
          db := db,
          ops := [Op.sqlOpen "sqlite3" "../db/rsvp.db",
                  Op.prepare "DELETE FROM rsvp WHERE id = ?", Op.exec [SqlArg.int id],
                  Op.stmtClose, Op.dbClose] }
      else if env.rowsAffectedErr ∨ (Store.execDelete db id).2 = 0 then
        { resp := ({ StatusCode := 404, Body := "RSVP not found" }, none),
          db := (Store.execDelete db id).1,
          ops := [Op.sqlOpen "sqlite3" "../db/rsvp.db",
                  Op.prepare "DELETE FROM rsvp WHERE id = ?", Op.exec [SqlArg.int id],
                  Op.rowsAffected, Op.stmtClose, Op.dbClose] }
      else
        { resp := ({ StatusCode := 200,
                     Body := "RSVP with ID " ++ fmtInt id ++ " deleted" }, none),
          db := (Store.execDelete db id).1,
          ops := [Op.sqlOpen "sqlite3" "../db/rsvp.db",
                  Op.prepare "DELETE FROM rsvp WHERE id = ?", Op.exec [SqlArg.int id],
                  Op.rowsAffected, Op.stmtClose, Op.dbClose] } := by
  simp only [handler, hid, StatusInternalServerError, StatusNotFound, StatusOK]

/-- The handler when the identifier does not parse. -/
theorem dl_handler_unparsed (request : APIGatewayProxyRequest) (env : Env) (db : Store)
    (hid : (strconv.Atoi (mapIndex request.PathParameters "id")).2 ≠ none) :
    handler request env db =
      { resp := ({ StatusCode := 400, Body := "Invalid ID" }, none), db := db, ops := [] } := by
  rcases hA : strconv.Atoi (mapIndex request.PathParameters "id") with ⟨v, e⟩
  rw [hA] at hid
  cases e with
  | none => exact absurd rfl hid
  | some e => simp only [handler, hA, StatusBadRequest]

/-- The status code of every run, by the precedence of the source. -/
theorem dl_handler_status (request : APIGatewayProxyRequest) (env : Env) (db : Store) :
    (handler request env db).resp.1.StatusCode =
      if (strconv.Atoi (mapIndex request.PathParameters "id")).2 ≠ none then 400
      else if env.openErr then 500
      else if env.prepareErr then 500
      else if env.execErr then 500
      else if env.rowsAffectedErr ∨
          (Store.execDelete db (strconv.Atoi (mapIndex request.PathParameters "id")).1).2 = 0
        then 404
      else 200 := by
  by_cases hp : (strconv.Atoi (mapIndex request.PathParameters "id")).2 ≠ none
  · rw [dl_handler_unparsed request env db hp, if_pos hp]
  · rw [if_neg hp, dl_handler_parsed request env db _ (pair_of_no_error _ hp)]
    split_ifs <;> rfl

/-- Claim C1. In the delete handler, when the identifier parses and store open,
statement preparation and statement execution succeed, an error reading the
affected-row count and a count of zero both give status 404 with body
"RSVP not found". -/
theorem dl_count_error_or_zero_is_not_found (request : APIGatewayProxyRequest) (env : Env)
    (db : Store) (id : Int)
    (hid : strconv.Atoi (mapIndex request.PathParameters "id") = (id, none))
    (hopen : env.openErr = false) (hprep : env.prepareErr = false)
    (hexec : env.execErr = false)
    (hcount : env.rowsAffectedErr = true ∨ (Store.execDelete db id).2 = 0) :
    (handler request env db).resp =
      ({ StatusCode := 404, Body := "RSVP not found" }, none) := by
  rw [dl_handler_parsed request env db id hid]
  simp [hopen, hprep, hexec, hcount]

/-- Witness of C1: the row exists and is deleted, reading the count fails, the
response is 404. -/
theorem dl_count_error_or_zero_is_not_found_witness :
    strconv.Atoi (mapIndex [("id", "1")] "id") = (1, none) ∧
    (handler { PathParameters := [("id", "1")] } { Env.ok with rowsAffectedErr := true }
        [{ id := 1, name := "Ada", email := "ada@x.com", event := "Launch" }]).resp =
      ({ StatusCode := 404, Body := "RSVP not found" }, none) :=
  ⟨by decide,
   dl_count_error_or_zero_is_not_found { PathParameters := [("id", "1")] }
     { Env.ok with rowsAffectedErr := true }
     [{ id := 1, name := "Ada", email := "ada@x.com", event := "Launch" }] 1
     (by decide) rfl rfl rfl (Or.inl rfl)⟩

/-- Claim C3. When the path parameter "id" does not parse as an integer, the delete
handler returns status 400 with body "Invalid ID" and makes no database call: the store
is not opened and is unchanged, whatever the environment. Non-numeric text such as
"abc", the empty string, a missing "id" parameter and digits out of the integer range
are all such parse failures. -/
theorem dl_invalid_id_no_store_access (request : APIGatewayProxyRequest) (env : Env)
    (db : Store) :
    ((strconv.Atoi (mapIndex request.PathParameters "id")).2 ≠ none →
      handler request env db =
        { resp := ({ StatusCode := 400, Body := "Invalid ID" }, none),
          db := db, ops := [] }) ∧
    (strconv.Atoi "abc").2 = some strconv.NumError.ErrSyntax ∧
    (strconv.Atoi "").2 = some strconv.NumError.ErrSyntax ∧
    mapIndex [] "id" = "" ∧
    mapIndex [("name", "7")] "id" = "" ∧
    (strconv.Atoi "9223372036854775808").2 = some strconv.NumError.ErrRange ∧
    (strconv.Atoi "-9223372036854775809").2 = some strconv.NumError.ErrRange :=
  ⟨dl_handler_unparsed request env db, by decide, by decide, by decide, by decide, by decide,
    by decide⟩

/-- Witness of C3: the identifier "abc" on a table with one row, in an environment where
every database call would fail. -/
theorem dl_invalid_id_no_store_access_witness :
    (strconv.Atoi (mapIndex [("id", "abc")] "id")).2 ≠ none ∧
    handler { PathParameters := [("id", "abc")] }
        { openErr := true, prepareErr := true, execErr := true, rowsAffectedErr := true,
          lambdaTaskRoot := "" }
        [{ id := 1, name := "Ada", email := "ada@x.com", event := "Launch" }] =
      { resp := ({ StatusCode := 400, Body := "Invalid ID" }, none),
        db := [{ id := 1, name := "Ada", email := "ada@x.com", event := "Launch" }],
        ops := [] } :=
  ⟨by decide,
   (dl_invalid_id_no_store_access { PathParameters := [("id", "abc")] }
      { openErr := true, prepareErr := true, execErr := true, rowsAffectedErr := true,
        lambdaTaskRoot := "" }
      [{ id := 1, name := "Ada", email := "ada@x.com", event := "Launch" }]).1 (by decide)⟩

/-- Claim C8. Two delete calls in sequence on the same integer id, with no create in
between and no database call failing: the first returns 200 if a row with that id
existed and 404 otherwise, the second always returns 404. -/
theorem dl_twice (request1 request2 : APIGatewayProxyRequest) (env1 env2 : Env)
    (db : Store) (id : Int)
    (hid1 : strconv.Atoi (mapIndex request1.PathParameters "id") = (id, none))
    (hid2 : strconv.Atoi (mapIndex request2.PathParameters "id") = (id, none))
    (hok1 : env1.AllOk) (hok2 : env2.AllOk) :
    ((∃ r ∈ db, r.id = id) → (handler request1 env1 db).resp.1.StatusCode = 200) ∧
    ((¬ ∃ r ∈ db, r.id = id) → (handler request1 env1 db).resp.1.StatusCode = 404) ∧
    (handler request2 env2 (handler request1 env1 db).db).resp.1.StatusCode = 404 := by
  obtain ⟨ho1, hp1, he1, hr1⟩ := hok1
  obtain ⟨ho2, hp2, he2, hr2⟩ := hok2
  have hdb : (handler request1 env1 db).db = (Store.execDelete db id).1 := by
    rw [dl_handler_parsed request1 env1 db id hid1, if_neg (by simp [ho1]),
      if_neg (by simp [hp1]), if_neg (by simp [he1])]
    split_ifs <;> rfl
  refine ⟨?_, ?_, ?_⟩
  · rintro ⟨r, hr, hrid⟩
    have hc : (Store.execDelete db id).2 ≠ 0 := by
      rw [ne_eq, Store.execDelete_count_eq_zero]
      exact fun h => h r hr hrid
    rw [dl_handler_status, hid1]
    simp [ho1, hp1, he1, hr1, hc]
  · intro hno
    have hc : (Store.execDelete db id).2 = 0 := by
      rw [Store.execDelete_count_eq_zero]
      exact fun r hr hrid => hno ⟨r, hr, hrid⟩
    rw [dl_handler_status, hid1]
    simp [ho1, hp1, he1, hc]
  · rw [hdb, dl_handler_status, hid2]
    simp [ho2, hp2, he2, Store.execDelete_twice_count]

/-- Witness of C8: the identifier texts "2" and "+2" on a table holding the rows 1
and 2. -/
theorem dl_twice_witness :
    strconv.Atoi (mapIndex [("id", "2")] "id") = (2, none) ∧
    strconv.Atoi (mapIndex [("id", "+2")] "id") = (2, none) ∧
    Env.ok.AllOk ∧
    (handler { PathParameters := [("id", "+2")] } Env.ok
      (handler { PathParameters := [("id", "2")] } Env.ok
        [{ id := 1, name := "Ada", email := "ada@x.com", event := "Launch" },
         { id := 2, name := "Bob", email := "bob@x.com", event := "Launch" }]).db
      ).resp.1.StatusCode = 404 :=
  ⟨by decide, by decide, by decide,
   (dl_twice { PathParameters := [("id", "2")] } { PathParameters := [("id", "+2")] }
      Env.ok Env.ok
      [{ id := 1, name := "Ada", email := "ada@x.com", event := "Launch" },
       { id := 2, name := "Bob", email := "bob@x.com", event := "Launch" }] 2
      (by decide) (by decide) (by decide) (by decide)).2.2⟩

/-- Claim C10. The delete handler is total over its outcomes: every run returns a nil
error together with a response whose status is one of 200, 400, 404, 500, chosen by the
precedence parse failure (400), open failure (500), prepare failure (500), execute
failure (500), count error or zero rows (404), success (200). -/
theorem dl_total_precedence (request : APIGatewayProxyRequest) (env : Env) (db : Store) :
    (handler request env db).resp.2 = none ∧
    (handler request env db).resp.1.StatusCode =
      (if (strconv.Atoi (mapIndex request.PathParameters "id")).2 ≠ none then 400
       else if env.openErr then 500
       else if env.prepareErr then 500
       else if env.execErr then 500
       else if env.rowsAffectedErr ∨
           (Store.execDelete db
             (strconv.Atoi (mapIndex request.PathParameters "id")).1).2 = 0
         then 404
       else 200) ∧
    ((handler request env db).resp.1.StatusCode = 200 ∨
     (handler request env db).resp.1.StatusCode = 400 ∨
     (handler request env db).resp.1.StatusCode = 404 ∨
     (handler request env db).resp.1.StatusCode = 500) := by
  refine ⟨?_, dl_handler_status request env db, ?_⟩
  · by_cases hp : (strconv.Atoi (mapIndex request.PathParameters "id")).2 ≠ none
    · rw [dl_handler_unparsed request env db hp]
    · rw [dl_handler_parsed request env db _ (pair_of_no_error _ hp)]
      split_ifs <;> rfl
  · rw [dl_handler_status]
    split_ifs <;> simp

end DlRsvp

/-! ## The create handler -/

namespace AddRsvp

/-- The handler once the body has decoded to `rsvp`: the branches on the database
calls, in the order of the source. -/
theorem add_handler_decoded (r : Request) (env : Env) (db : Store) (rsvp : RSVP)
    (hd : Decode r.Body = (rsvp, none)) :
    handler r env db =
      if env.openErr then
        { resp := httpError "Database connection failed" 500, db := db,
          ops := [Op.sqlOpen "sqlite3" (env.lambdaTaskRoot ++ "/../db/rsvp.db")] }
      else if env.prepareErr then
        { resp := httpError "Failed to prepare statement" 500, db := db,
          ops := [Op.sqlOpen "sqlite3" (env.lambdaTaskRoot ++ "/../db/rsvp.db"),
                  Op.prepare "INSERT INTO rsvp(name, email, event) VALUES (?, ?, ?)",
                  Op.dbClose] }
      else if env.execErr then
        { resp := httpError "Failed to execute statement" 500, db := db,
          ops := [Op.sqlOpen "sqlite3" (env.lambdaTaskRoot ++ "/../db/rsvp.db"),
                  Op.prepare "INSERT INTO rsvp(name, email, event) VALUES (?, ?, ?)",
                  Op.exec [SqlArg.text rsvp.Name, SqlArg.text rsvp.Email,
                           SqlArg.text rsvp.Event],
                  Op.stmtClose, Op.dbClose] }
      else
        { resp := { status := 200, body := "RSVP added for " ++ rsvp.Name },
          db := db ++ [{ id := Store.nextId db, name := rsvp.Name, email := rsvp.Email,
                         event := rsvp.Event }],
          ops := [Op.sqlOpen "sqlite3" (env.lambdaTaskRoot ++ "/../db/rsvp.db"),
                  Op.prepare "INSERT INTO rsvp(name, email, event) VALUES (?, ?, ?)",
                  Op.exec [SqlArg.text rsvp.Name, SqlArg.text rsvp.Email,
                           SqlArg.text rsvp.Event],
                  Op.stmtClose, Op.dbClose] } := by
  simp only [handler, hd, StatusInternalServerError, StatusOK, fprintf, Store.execInsert]

/-- The handler when decoding the body returns an error. -/
theorem add_handler_undecoded (r : Request) (env : Env) (db : Store)
    (hd : (Decode r.Body).2 ≠ none) :
    handler r env db =
      { resp := httpError "Invalid request body" 400, db := db, ops := [] } := by
  rcases hA : Decode r.Body with ⟨v, e⟩
  rw [hA] at hd
  cases e with
  | none => exact absurd rfl hd
  | some e => simp only [handler, hA, StatusBadRequest]

/-- A field whose key no member names keeps its value. -/
theorem foldl_decodeMember_missing (members : List (String × JSON))
    (acc : RSVP × Option JsonError) :
    ((∀ kv ∈ members, foldName kv.1 ≠ foldName "name") →
      (members.foldl decodeMember acc).1.Name = acc.1.Name) ∧
    ((∀ kv ∈ members, foldName kv.1 ≠ foldName "email") →
      (members.foldl decodeMember acc).1.Email = acc.1.Email) ∧
    ((∀ kv ∈ members, foldName kv.1 ≠ foldName "event") →
      (members.foldl decodeMember acc).1.Event = acc.1.Event) := by
  induction members generalizing acc with
  | nil => simp
  | cons kv rest ih =>
    simp only [List.foldl_cons, List.mem_cons, forall_eq_or_imp]
    have hne : foldName "name" ≠ foldName "email" := by decide
    have hnv : foldName "name" ≠ foldName "event" := by decide
    have hev : foldName "email" ≠ foldName "event" := by decide
    refine ⟨?_, ?_, ?_⟩
    · rintro ⟨hk, hrest⟩
      rw [(ih _).1 hrest]
      unfold decodeMember
      simp only [hk, if_false]
      split_ifs <;> rfl
    · rintro ⟨hk, hrest⟩
      rw [(ih _).2.1 hrest]
      unfold decodeMember
      simp only [hk, if_false]
      split_ifs <;> rfl
    · rintro ⟨hk, hrest⟩
      rw [(ih _).2.2 hrest]
      unfold decodeMember
      simp only [hk, if_false]
      split_ifs <;> rfl

/-- Storing a value records an error exactly when the value is neither a JSON string
nor `null`. -/
theorem storeString_error (v : JSON) (old : String) :
    (storeString v old).2 ≠ none ↔ fitsString v = false := by
  cases v <;> simp [storeString, fitsString]

/-- One member records an error exactly when an error was recorded before, or the
member names a field and its value does not fit. -/
theorem decodeMember_error (acc : RSVP × Option JsonError) (kv : String × JSON) :
    (decodeMember acc kv).2 ≠ none ↔
      acc.2 ≠ none ∨ (namesField kv.1 ∧ fitsString kv.2 = false) := by
  have hs := fun old => storeString_error kv.2 old
  have hsave : ∀ old, (saveError acc.2 (storeString kv.2 old).2) ≠ none ↔
      acc.2 ≠ none ∨ fitsString kv.2 = false := by
    intro old
    rw [← hs old]
    cases acc.2 <;> simp [saveError]
  unfold decodeMember namesField
  by_cases h1 : foldName kv.1 = foldName "name"
  · simp only [h1, if_true, true_or, true_and]
    exact hsave _
  · by_cases h2 : foldName kv.1 = foldName "email"
    · simp only [h1, h2, if_true, if_false, true_or, or_true, true_and]
      exact hsave _
    · by_cases h3 : foldName kv.1 = foldName "event"
      · simp only [h1, h2, h3, if_true, if_false, or_true, true_and]
        exact hsave _
      · simp only [h1, h2, h3, if_false, or_false, false_and]

/-- Decoding the members of an object ends with an error exactly when it started with
one, or some member names a field and gives it a value that does not fit. -/
theorem foldl_decodeMember_error (members : List (String × JSON))
    (acc : RSVP × Option JsonError) :
    (members.foldl decodeMember acc).2 ≠ none ↔
      acc.2 ≠ none ∨ ∃ kv ∈ members, namesField kv.1 ∧ fitsString kv.2 = false := by
  induction members generalizing acc with
  | nil => simp
  | cons kv rest ih =>
    rw [List.foldl_cons, ih, decodeMember_error]
    simp only [List.mem_cons, exists_eq_or_imp]
    tauto

/-- Claim C4 as stated fails: the bodies `{}` and `{"name":"Ada"}`, JSON with missing
fields, decode without error; the create handler opens the store, inserts a row whose
missing fields are empty strings and answers 200, not 400. -/
theorem add_missing_field_counterexample :
    handler { Body := some (JSON.object []) } Env.ok [] =
      { resp := { status := 200, body := "RSVP added for " },
        db := [{ id := 1, name := "", email := "", event := "" }],
        ops := [Op.sqlOpen "sqlite3" "/../db/rsvp.db",
                Op.prepare "INSERT INTO rsvp(name, email, event) VALUES (?, ?, ?)",
                Op.exec [SqlArg.text "", SqlArg.text "", SqlArg.text ""],
                Op.stmtClose, Op.dbClose] } ∧
    handler { Body := some (JSON.object [("name", JSON.string "Ada")]) } Env.ok [] =
      { resp := { status := 200, body := "RSVP added for Ada" },
        db := [{ id := 1, name := "Ada", email := "", event := "" }],
        ops := [Op.sqlOpen "sqlite3" "/../db/rsvp.db",
                Op.prepare "INSERT INTO rsvp(name, email, event) VALUES (?, ?, ?)",
                Op.exec [SqlArg.text "Ada", SqlArg.text "", SqlArg.text ""],
                Op.stmtClose, Op.dbClose] } ∧
    (handler { Body := some (JSON.object []) } Env.ok []).resp.status ≠ 400 := by
  refine ⟨by decide, by decide, by decide⟩

/-- Claim C4, amended. When decoding the body returns an error, the create handler
answers 400 with the message "Invalid request body", makes no database call and leaves
the store unchanged. Decoding returns an error in exactly three cases: the body does not
begin with a JSON value; the JSON value is neither an object nor null; the value is an
object in which some member names the field name, email or event (letter case apart) and
gives it a value that is neither a string nor null. A missing field is no decoding
error: it decodes as the empty string, and so does every field of the body `null`. -/
theorem add_undecodable_body (r : Request) (env : Env) (db : Store) :
    ((Decode r.Body).2 ≠ none →
      handler r env db =
        { resp := httpError "Invalid request body" 400, db := db, ops := [] }) ∧
    (r.Body = none → (Decode r.Body).2 ≠ none) ∧
    (∀ s n b elems, (Decode (some (JSON.string s))).2 ≠ none ∧
      (Decode (some (JSON.number n))).2 ≠ none ∧ (Decode (some (JSON.bool b))).2 ≠ none ∧
      (Decode (some (JSON.array elems))).2 ≠ none) ∧
    Decode (some JSON.null) = ({ Name := "", Email := "", Event := "" }, none) ∧
    (∀ members, r.Body = some (JSON.object members) →
      ((Decode r.Body).2 ≠ none ↔
        ∃ kv ∈ members, namesField kv.1 ∧ fitsString kv.2 = false) ∧
      ((∃ kv ∈ members, namesField kv.1 ∧ fitsString kv.2 = false) →
        handler r env db =
          { resp := httpError "Invalid request body" 400, db := db, ops := [] }) ∧
      ((∀ kv ∈ members, foldName kv.1 ≠ foldName "name") → (Decode r.Body).1.Name = "") ∧
      ((∀ kv ∈ members, foldName kv.1 ≠ foldName "email") → (Decode r.Body).1.Email = "") ∧
      ((∀ kv ∈ members, foldName kv.1 ≠ foldName "event") → (Decode r.Body).1.Event = "")) := by
  refine ⟨add_handler_undecoded r env db, ?_, ?_, rfl, ?_⟩
  · intro h
    rw [h]
    simp [Decode]
  · intro s n b elems
    simp [Decode]
  · intro members hb
    have herr : (Decode r.Body).2 ≠ none ↔
        ∃ kv ∈ members, namesField kv.1 ∧ fitsString kv.2 = false := by
      rw [hb]
      simp only [Decode]
      rw [foldl_decodeMember_error]
      simp
    refine ⟨herr, fun h => add_handler_undecoded r env db (herr.mpr h), ?_⟩
    rw [hb]
    simp only [Decode]
    exact foldl_decodeMember_missing members (RSVP.zero, none)

/-- Witness of the amended C4, in an environment where no database call would fail: a
body that is not JSON on a table with one row; the body `{"Name":5}`, whose name is a
number, on the same table; and the body `{"name":"Ada","x":5}`, whose missing event is
the empty string. -/
theorem add_undecodable_body_witness :
    (Decode (none : Option JSON)).2 ≠ none ∧
    handler { Body := none } Env.ok
        [{ id := 1, name := "Ada", email := "ada@x.com", event := "Launch" }] =
      { resp := httpError "Invalid request body" 400,
        db := [{ id := 1, name := "Ada", email := "ada@x.com", event := "Launch" }],
        ops := [] } ∧
    (namesField "Name" ∧ fitsString (JSON.number "5") = false) ∧
    handler { Body := some (JSON.object [("Name", JSON.number "5")]) } Env.ok
        [{ id := 1, name := "Ada", email := "ada@x.com", event := "Launch" }] =
      { resp := httpError "Invalid request body" 400,
        db := [{ id := 1, name := "Ada", email := "ada@x.com", event := "Launch" }],
        ops := [] } ∧
    (Decode (some (JSON.object [("name", JSON.string "Ada"),
        ("x", JSON.number "5")]))).1.Event = "" :=
  ⟨by decide,
   (add_undecodable_body { Body := none } Env.ok
      [{ id := 1, name := "Ada", email := "ada@x.com", event := "Launch" }]).1 (by decide),
   by decide,
   ((add_undecodable_body { Body := some (JSON.object [("Name", JSON.number "5")]) } Env.ok
      [{ id := 1, name := "Ada", email := "ada@x.com", event := "Launch" }]).2.2.2.2
      [("Name", JSON.number "5")] rfl).2.1
      ⟨("Name", JSON.number "5"), List.mem_singleton.mpr rfl, by decide⟩,
   ((add_undecodable_body
      { Body := some (JSON.object [("name", JSON.string "Ada"), ("x", JSON.number "5")]) }
      Env.ok []).2.2.2.2 [("name", JSON.string "Ada"), ("x", JSON.number "5")] rfl
      ).2.2.2.2 (by decide)⟩

/-- Claim C5. For every create request and store: a response 200 comes with exactly one
new row, holding the decoded name, email and event under a new id, appended to the
unchanged earlier rows; a response 400 or 500 comes with an unchanged store. -/
theorem add_frame (r : Request) (env : Env) (db : Store) :
    ((handler r env db).resp.status = 200 →
      (Decode r.Body).2 = none ∧
      (handler r env db).db =
        db ++ [{ id := Store.nextId db, name := (Decode r.Body).1.Name,
                 email := (Decode r.Body).1.Email, event := (Decode r.Body).1.Event }] ∧
      Store.nextId db ∉ db.map Row.id ∧
      (handler r env db).db.length = db.length + 1) ∧
    ((handler r env db).resp.status = 400 ∨ (handler r env db).resp.status = 500 →
      (handler r env db).db = db) ∧
    ((handler r env db).resp.status = 200 ∨ (handler r env db).resp.status = 400 ∨
      (handler r env db).resp.status = 500) := by
  by_cases hp : (Decode r.Body).2 ≠ none
  · rw [add_handler_undecoded r env db hp]
    simp [httpError]
  · rw [add_handler_decoded r env db _ (pair_of_no_error _ hp)]
    have hn := Store.nextId_not_mem db
    simp only [ne_eq, not_not] at hp
    split_ifs <;> simp [httpError, hp, hn]

/-- Witness of C5: the scenario body on a table with one row, all database calls
succeeding, and the same body when statement execution fails. -/
theorem add_frame_witness :
    (handler { Body := some (JSON.object [("name", JSON.string "Ada"),
          ("email", JSON.string "ada@x.com"), ("event", JSON.string "Launch")]) } Env.ok
        [{ id := 4, name := "Bob", email := "bob@x.com", event := "Launch" }]).db =
      [{ id := 4, name := "Bob", email := "bob@x.com", event := "Launch" },
       { id := 5, name := "Ada", email := "ada@x.com", event := "Launch" }] ∧
    (handler { Body := some (JSON.object [("name", JSON.string "Ada"),
          ("email", JSON.string "ada@x.com"), ("event", JSON.string "Launch")]) }
        { Env.ok with execErr := true }
        [{ id := 4, name := "Bob", email := "bob@x.com", event := "Launch" }]).db =
      [{ id := 4, name := "Bob", email := "bob@x.com", event := "Launch" }] :=
  ⟨((add_frame { Body := some (JSON.object [("name", JSON.string "Ada"),
          ("email", JSON.string "ada@x.com"), ("event", JSON.string "Launch")]) } Env.ok
        [{ id := 4, name := "Bob", email := "bob@x.com", event := "Launch" }]).1
        (by decide)).2.1,
   (add_frame { Body := some (JSON.object [("name", JSON.string "Ada"),
          ("email", JSON.string "ada@x.com"), ("event", JSON.string "Launch")]) }
        { Env.ok with execErr := true }
        [{ id := 4, name := "Bob", email := "bob@x.com", event := "Launch" }]).2.1
        (Or.inr (by decide))⟩

/-- Claim C7. When the body decodes and store open, prepare and execute succeed, the
create handler answers 200 with the body "RSVP added for " followed by the decoded
name; the response is the same for every store and environment and for every request
with that name, so it never carries the store-assigned id. -/
theorem add_success_response (r : Request) (env : Env) (db : Store) (rsvp : RSVP)
    (hd : Decode r.Body = (rsvp, none))
    (hopen : env.openErr = false) (hprep : env.prepareErr = false)
    (hexec : env.execErr = false) :
    (handler r env db).resp = { status := 200, body := "RSVP added for " ++ rsvp.Name } ∧
    (∀ (r2 : Request) (env2 : Env) (db2 : Store) (rsvp2 : RSVP),
      Decode r2.Body = (rsvp2, none) → env2.openErr = false → env2.prepareErr = false →
      env2.execErr = false → rsvp2.Name = rsvp.Name →
      (handler r2 env2 db2).resp = (handler r env db).resp) := by
  have key : ∀ (r : Request) (env : Env) (db : Store) (rsvp : RSVP),
      Decode r.Body = (rsvp, none) → env.openErr = false → env.prepareErr = false →
      env.execErr = false →
      (handler r env db).resp =
        { status := 200, body := "RSVP added for " ++ rsvp.Name } := by
    intro r env db rsvp hd ho hp he
    rw [add_handler_decoded r env db rsvp hd]
    simp [ho, hp, he]
  refine ⟨key r env db rsvp hd hopen hprep hexec, ?_⟩
  intro r2 env2 db2 rsvp2 hd2 ho2 hp2 he2 hname
  rw [key r env db rsvp hd hopen hprep hexec, key r2 env2 db2 rsvp2 hd2 ho2 hp2 he2, hname]

/-- Witness of C7: a body whose three fields are empty strings. -/
theorem add_success_response_witness :
    Decode (some (JSON.object [("name", JSON.string ""), ("email", JSON.string ""),
        ("event", JSON.string "")])) = ({ Name := "", Email := "", Event := "" }, none) ∧
    (handler { Body := some (JSON.object [("name", JSON.string ""),
          ("email", JSON.string ""), ("event", JSON.string "")]) } Env.ok
        [{ id := 1, name := "Ada", email := "ada@x.com", event := "Launch" }]).resp =
      { status := 200, body := "RSVP added for " ++ "" } :=
  ⟨by decide,
   (add_success_response { Body := some (JSON.object [("name", JSON.string ""),
          ("email", JSON.string ""), ("event", JSON.string "")]) } Env.ok
        [{ id := 1, name := "Ada", email := "ada@x.com", event := "Launch" }]
        { Name := "", Email := "", Event := "" } (by decide) rfl rfl rfl).1⟩

end AddRsvp

/-! ## Both handlers -/

/-- Claim C9. A successful create followed by a successful delete of the id the store
assigned to the new row leaves the store in its state before the create: the same rows,
unmodified, and so the same row count. -/
theorem create_then_delete (r : AddRsvp.Request) (request : DlRsvp.APIGatewayProxyRequest)
    (env1 env2 : Env) (db : Store) (rsvp : AddRsvp.RSVP)
    (hd : AddRsvp.Decode r.Body = (rsvp, none))
    (hid : strconv.Atoi (DlRsvp.mapIndex request.PathParameters "id") =
      (Store.nextId db, none))
    (hok1 : env1.AllOk) (hok2 : env2.AllOk) :
    (AddRsvp.handler r env1 db).resp.status = 200 ∧
    (AddRsvp.handler r env1 db).db =
      db ++ [{ id := Store.nextId db, name := rsvp.Name, email := rsvp.Email,
               event := rsvp.Event }] ∧
    (DlRsvp.handler request env2 (AddRsvp.handler r env1 db).db).resp.1.StatusCode = 200 ∧
    (DlRsvp.handler request env2 (AddRsvp.handler r env1 db).db).db = db ∧
    (DlRsvp.handler request env2 (AddRsvp.handler r env1 db).db).db.length = db.length := by
  obtain ⟨ho1, hp1, he1, -⟩ := hok1
  obtain ⟨ho2, hp2, he2, hr2⟩ := hok2
  have hadd : AddRsvp.handler r env1 db =
      { resp := { status := 200, body := "RSVP added for " ++ rsvp.Name },
        db := Store.execInsert db rsvp.Name rsvp.Email rsvp.Event,
        ops := [Op.sqlOpen "sqlite3" (env1.lambdaTaskRoot ++ "/../db/rsvp.db"),
                Op.prepare "INSERT INTO rsvp(name, email, event) VALUES (?, ?, ?)",
                Op.exec [SqlArg.text rsvp.Name, SqlArg.text rsvp.Email,
                         SqlArg.text rsvp.Event],
                Op.stmtClose, Op.dbClose] } := by
    rw [AddRsvp.add_handler_decoded r env1 db rsvp hd]
    simp [ho1, hp1, he1, Store.execInsert]
  have hdel := Store.execDelete_execInsert db rsvp.Name rsvp.Email rsvp.Event
  have hrun : (DlRsvp.handler request env2
      (Store.execInsert db rsvp.Name rsvp.Email rsvp.Event)) =
      { resp := ({ StatusCode := 200,
                   Body := "RSVP with ID " ++ fmtInt (Store.nextId db) ++ " deleted" }, none),
        db := db,
        ops := [Op.sqlOpen "sqlite3" "../db/rsvp.db",
                Op.prepare "DELETE FROM rsvp WHERE id = ?",
                Op.exec [SqlArg.int (Store.nextId db)],
                Op.rowsAffected, Op.stmtClose, Op.dbClose] } := by
    rw [DlRsvp.dl_handler_parsed request env2 _ _ hid, hdel]
    simp [ho2, hp2, he2, hr2]
  rw [hadd]
  simp only [hrun]
  simp [Store.execInsert]

/-- Witness of C9: the scenario body on a table holding the rows 1 and 2; the new row
gets the id 3 and the delete of "3" gives the two rows back. -/
theorem create_then_delete_witness :
    AddRsvp.Decode (some (JSON.object [("name", JSON.string "Ada"),
        ("email", JSON.string "ada@x.com"), ("event", JSON.string "Launch")])) =
      ({ Name := "Ada", Email := "ada@x.com", Event := "Launch" }, none) ∧
    strconv.Atoi (DlRsvp.mapIndex [("id", "3")] "id") =
      (Store.nextId [{ id := 1, name := "Bob", email := "bob@x.com", event := "Launch" },
                     { id := 2, name := "Eve", email := "eve@x.com", event := "Launch" }],
       none) ∧
    Env.ok.AllOk ∧
    (DlRsvp.handler { PathParameters := [("id", "3")] } Env.ok
      (AddRsvp.handler { Body := some (JSON.object [("name", JSON.string "Ada"),
          ("email", JSON.string "ada@x.com"), ("event", JSON.string "Launch")]) } Env.ok
        [{ id := 1, name := "Bob", email := "bob@x.com", event := "Launch" },
         { id := 2, name := "Eve", email := "eve@x.com", event := "Launch" }]).db).db =
      [{ id := 1, name := "Bob", email := "bob@x.com", event := "Launch" },
       { id := 2, name := "Eve", email := "eve@x.com", event := "Launch" }] :=
  ⟨by decide, by decide, by decide,
   (create_then_delete
      { Body := some (JSON.object [("name", JSON.string "Ada"),
          ("email", JSON.string "ada@x.com"), ("event", JSON.string "Launch")]) }
      { PathParameters := [("id", "3")] } Env.ok Env.ok
      [{ id := 1, name := "Bob", email := "bob@x.com", event := "Launch" },
       { id := 2, name := "Eve", email := "eve@x.com", event := "Launch" }]
      { Name := "Ada", Email := "ada@x.com", Event := "Launch" }
      (by decide) (by decide) (by decide) (by decide)).2.2.2.1⟩
